import Mathlib

/-!
Shallow embedding of the iocp-wrapper repository (src/interests.rs and
src/main.rs) for checking its natural-language specification.

Part 1: src/interests.rs.

The Rust type is a transparent wrapper around a NonZeroU8.  We model a u8
as a natural number below 256 and NonZeroU8 as a natural number that is
additionally non-zero; bitwise or of two u8 values never overflows, so no
modular reduction is needed anywhere in this file.  The module-level flag
constants of interests.rs live in the namespace interests (the Rust module
name) to keep them apart from the public constants of the Interests type.
-/

/-- NonZeroU8 from the Rust standard library: a byte together with the
invariants that it fits in 8 bits and is non-zero. -/
structure NonZeroU8 where
  get : Nat
  get_lt : get < 256
  get_ne_zero : get ≠ 0

/-- Constructor corresponding to NonZeroU8.new_unchecked; the two proof
arguments discharge the obligation that the Rust code marks unsafe. -/
def NonZeroU8.new_unchecked (n : Nat) (h1 : n < 256) (h2 : n ≠ 0) : NonZeroU8 :=
  ⟨n, h1, h2⟩

theorem NonZeroU8.ext_get : ∀ {a b : NonZeroU8}, a.get = b.get → a = b
  | ⟨_, _, _⟩, ⟨_, _, _⟩, rfl => rfl

/-- Module-level flag constant READABLE = 0b0_001 (interests.rs line 17). -/
def interests.READABLE : Nat := 0b0001

/-- Module-level flag constant WRITABLE = 0b0_010 (interests.rs line 18). -/
def interests.WRITABLE : Nat := 0b0010

/-- Module-level flag constant AIO = 0b0_100 (interests.rs line 29).  The
constant itself exists on every platform; only the public constant
Interests.AIO is cfg-gated. -/
def interests.AIO : Nat := 0b0100

/-- Module-level flag constant LIO = 0b1_000 (interests.rs line 31). -/
def interests.LIO : Nat := 0b1000

/-- Interests (interests.rs line 14): a transparent wrapper around
NonZeroU8. -/
structure Interests where
  val : NonZeroU8

theorem Interests.ext_val : ∀ {a b : Interests}, a.val = b.val → a = b
  | ⟨_⟩, ⟨_⟩, rfl => rfl

/-- Public constant Interests.READABLE (interests.rs line 35). -/
def Interests.READABLE : Interests :=
  ⟨NonZeroU8.new_unchecked interests.READABLE (by decide) (by decide)⟩

/-- Public constant Interests.WRITABLE (interests.rs line 38). -/
def Interests.WRITABLE : Interests :=
  ⟨NonZeroU8.new_unchecked interests.WRITABLE (by decide) (by decide)⟩

/-- Public constant Interests.AIO (interests.rs line 47), exposed only when
the target OS is dragonfly, freebsd, ios or macos. -/
def Interests.AIO : Interests :=
  ⟨NonZeroU8.new_unchecked interests.AIO (by decide) (by decide)⟩

/-- Public constant Interests.LIO (interests.rs line 51), exposed only when
the target OS is freebsd. -/
def Interests.LIO : Interests :=
  ⟨NonZeroU8.new_unchecked interests.LIO (by decide) (by decide)⟩

/-- Predicate is_readable (interests.rs lines 54-56):
(self.0.get() & READABLE) != 0. -/
def Interests.is_readable (self : Interests) : Bool :=
  (self.val.get &&& interests.READABLE) != 0

/-- Predicate is_writable (interests.rs lines 59-61):
(self.0.get() & WRITABLE) != 0. -/
def Interests.is_writable (self : Interests) : Bool :=
  (self.val.get &&& interests.WRITABLE) != 0

/-- Predicate is_aio (interests.rs lines 64-66):
(self.0.get() & AIO) != 0.  Callable on every platform. -/
def Interests.is_aio (self : Interests) : Bool :=
  (self.val.get &&& interests.AIO) != 0

/-- Predicate is_lio (interests.rs lines 69-71):
(self.0.get() & LIO) != 0.  Callable on every platform. -/
def Interests.is_lio (self : Interests) : Bool :=
  (self.val.get &&& interests.LIO) != 0

theorem Nat.or_lt_256 {a b : Nat} (ha : a < 256) (hb : b < 256) :
    a ||| b < 256 := by
  have : a ||| b < 2 ^ 8 := Nat.or_lt_two_pow (n := 8) ha hb
  simpa using this

theorem Nat.or_ne_zero_left {a b : Nat} (ha : a ≠ 0) : a ||| b ≠ 0 := by
  intro h
  obtain ⟨k, hk⟩ := Nat.ne_zero_implies_bit_true ha
  have hbit := congrArg (fun x => x.testBit k) h
  simp only [Nat.testBit_or, Nat.zero_testBit, hk] at hbit
  exact Bool.true_eq_false.mp hbit

/-- BitOr implementation (interests.rs lines 79-86):
Interests(NonZeroU8.new_unchecked(self.0.get() | other.0.get())). -/
def Interests.bitor (self other : Interests) : Interests :=
  ⟨NonZeroU8.new_unchecked (self.val.get ||| other.val.get)
    (Nat.or_lt_256 self.val.get_lt other.val.get_lt)
    (Nat.or_ne_zero_left self.val.get_ne_zero)⟩

/-- BitOrAssign implementation (interests.rs lines 88-93):
self.0 = (*self | other).0. -/
def Interests.bitor_assign (self other : Interests) : Interests :=
  { self with val := (Interests.bitor self other).val }

/-- Compilation target, recording which of the two cfg-gated public
constants of interests.rs are exposed: hasAio is the cfg any(dragonfly,
freebsd, ios, macos) guarding Interests.AIO and the AIO arm of the Debug
impl, hasLio is the cfg freebsd guarding Interests.LIO and the LIO arm. -/
structure TargetOs where
  hasAio : Bool
  hasLio : Bool

/-- Values of Interests constructible through the public interface on a
given target: the named constants (AIO and LIO only where their cfg
exposes them) and bitwise-or unions thereof.  The type has no other
public constructor, so this is exactly the reachable set. -/
inductive Interests.Constructible (os : TargetOs) : Interests → Prop
  | readable : Interests.Constructible os Interests.READABLE
  | writable : Interests.Constructible os Interests.WRITABLE
  | aio : os.hasAio = true → Interests.Constructible os Interests.AIO
  | lio : os.hasLio = true → Interests.Constructible os Interests.LIO
  | bitor {a b : Interests} : Interests.Constructible os a →
      Interests.Constructible os b →
      Interests.Constructible os (Interests.bitor a b)

theorem and_two_pow_bne (x k : Nat) : ((x &&& 2 ^ k) != 0) = x.testBit k := by
  rw [Nat.and_two_pow]
  cases h : x.testBit k <;> simp [h, Nat.pos_iff_ne_zero]

theorem is_readable_testBit (i : Interests) :
    i.is_readable = i.val.get.testBit 0 := by
  have h : interests.READABLE = 2 ^ 0 := rfl
  rw [Interests.is_readable, h, and_two_pow_bne]

theorem is_writable_testBit (i : Interests) :
    i.is_writable = i.val.get.testBit 1 := by
  have h : interests.WRITABLE = 2 ^ 1 := rfl
  rw [Interests.is_writable, h, and_two_pow_bne]

theorem is_aio_testBit (i : Interests) :
    i.is_aio = i.val.get.testBit 2 := by
  have h : interests.AIO = 2 ^ 2 := rfl
  rw [Interests.is_aio, h, and_two_pow_bne]

theorem is_lio_testBit (i : Interests) :
    i.is_lio = i.val.get.testBit 3 := by
  have h : interests.LIO = 2 ^ 3 := rfl
  rw [Interests.is_lio, h, and_two_pow_bne]

theorem bitor_val_get (a b : Interests) :
    (a.bitor b).val.get = a.val.get ||| b.val.get := rfl

theorem is_readable_bitor (a b : Interests) :
    (a.bitor b).is_readable = (a.is_readable || b.is_readable) := by
  simp [is_readable_testBit, bitor_val_get, Nat.testBit_or]

theorem is_writable_bitor (a b : Interests) :
    (a.bitor b).is_writable = (a.is_writable || b.is_writable) := by
  simp [is_writable_testBit, bitor_val_get, Nat.testBit_or]

theorem is_aio_bitor (a b : Interests) :
    (a.bitor b).is_aio = (a.is_aio || b.is_aio) := by
  simp [is_aio_testBit, bitor_val_get, Nat.testBit_or]

theorem is_lio_bitor (a b : Interests) :
    (a.bitor b).is_lio = (a.is_lio || b.is_lio) := by
  simp [is_lio_testBit, bitor_val_get, Nat.testBit_or]

/-- One conditional arm of the Debug impl (interests.rs lines 98-104 and
analogues): if the flag holds, append a separator when something was
already written, then the flag name, and record that something was
written.  The accumulator pairs the text written so far with the local
variable named one in the Rust code. -/
def debug_step (name : String) (flag : Bool) (acc : String × Bool) :
    String × Bool :=
  if flag then ((if acc.2 then acc.1 ++ " | " else acc.1) ++ name, true)
  else acc

/-- Debug impl for Interests (interests.rs lines 95-139).  Returns the
rendered text together with the final value of the local one, which is
the condition checked by the debug_assert on line 137 (the assertion
passes exactly when this boolean is true).  The AIO arm is compiled only
under cfg any(dragonfly, freebsd, ios, macos) and the LIO arm only under
cfg freebsd, which the TargetOs argument records. -/
def Interests.debug_fmt (os : TargetOs) (self : Interests) : String × Bool :=
  let acc : String × Bool := ("", false)
  let acc := debug_step "READABLE" self.is_readable acc
  let acc := debug_step "WRITABLE" self.is_writable acc
  let acc := if os.hasAio then debug_step "AIO" self.is_aio acc else acc
  let acc := if os.hasLio then debug_step "LIO" self.is_lio acc else acc
  acc

/-- Names of the flags of self that are set and whose rendering arm is
compiled on the target, in the order the Debug impl checks them.  This
definition follows the wording of the specification and is compared with
Interests.debug_fmt, which follows the code. -/
def Interests.flagNames (os : TargetOs) (self : Interests) : List String :=
  (if self.is_readable then ["READABLE"] else []) ++
  (if self.is_writable then ["WRITABLE"] else []) ++
  (if os.hasAio && self.is_aio then ["AIO"] else []) ++
  (if os.hasLio && self.is_lio then ["LIO"] else [])

theorem debug_fmt_eq_flagNames (os : TargetOs) (i : Interests) :
    Interests.debug_fmt os i =
      (String.intercalate " | " (Interests.flagNames os i),
       !(Interests.flagNames os i).isEmpty) := by
  obtain ⟨ha, hl⟩ := os
  cases ha <;> cases hl <;>
    cases hr : i.is_readable <;> cases hw : i.is_writable <;>
      cases haio : i.is_aio <;> cases hlio : i.is_lio <;>
        simp [Interests.debug_fmt, Interests.flagNames, debug_step,
          hr, hw, haio, hlio, String.intercalate] <;> rfl

theorem constructible_some_flag {os : TargetOs} {i : Interests}
    (h : Interests.Constructible os i) :
    (i.is_readable || i.is_writable || i.is_aio || i.is_lio) = true := by
  induction h with
  | readable => decide
  | writable => decide
  | aio _ => decide
  | lio _ => decide
  | bitor _ _ iha ihb =>
    simp only [is_readable_bitor, is_writable_bitor, is_aio_bitor,
      is_lio_bitor, Bool.or_eq_true] at iha ihb ⊢
    tauto

theorem constructible_displayed {os : TargetOs} {i : Interests}
    (h : Interests.Constructible os i) :
    (i.is_readable || i.is_writable ||
      (os.hasAio && i.is_aio) || (os.hasLio && i.is_lio)) = true := by
  induction h with
  | readable => rw [show Interests.READABLE.is_readable = true from rfl]; simp
  | writable => rw [show Interests.WRITABLE.is_writable = true from rfl]; simp
  | aio hx => rw [show Interests.AIO.is_aio = true from rfl, hx]; simp
  | lio hx => rw [show Interests.LIO.is_lio = true from rfl, hx]; simp
  | bitor _ _ iha ihb =>
    simp only [is_readable_bitor, is_writable_bitor, is_aio_bitor,
      is_lio_bitor, Bool.or_eq_true, Bool.and_eq_true] at iha ihb ⊢
    tauto

theorem flagNames_ne_nil {os : TargetOs} {i : Interests}
    (h : Interests.Constructible os i) :
    Interests.flagNames os i ≠ [] := by
  have hd := constructible_displayed h
  simp only [Bool.or_eq_true, Bool.and_eq_true] at hd
  rcases hd with ((hx | hx) | ⟨hy, hx⟩) | ⟨hy, hx⟩
  · simp [Interests.flagNames, hx]
  · simp [Interests.flagNames, hx]
  · simp [Interests.flagNames, hx, hy]
  · simp [Interests.flagNames, hx, hy]

theorem constructible_aio_of_flag {os : TargetOs} {i : Interests}
    (h : Interests.Constructible os i) (hno : os.hasAio = false) :
    i.is_aio = false := by
  induction h with
  | readable => decide
  | writable => decide
  | aio hx => rw [hx] at hno; cases hno
  | lio _ => decide
  | bitor _ _ iha ihb => rw [is_aio_bitor, iha, ihb]; rfl

theorem constructible_lio_of_flag {os : TargetOs} {i : Interests}
    (h : Interests.Constructible os i) (hno : os.hasLio = false) :
    i.is_lio = false := by
  induction h with
  | readable => decide
  | writable => decide
  | aio _ => decide
  | lio hx => rw [hx] at hno; cases hno
  | bitor _ _ iha ihb => rw [is_lio_bitor, iha, ihb]; rfl

/-!
Part 2: src/main.rs.

The three functions of main.rs wrap kernel primitives.  We embed them by
explicit state passing: each kernel primitive's nondeterministic outcome
is a parameter of the embedded function (universally quantified in the
theorems), and every kernel call the code makes is appended to a trace of
OsEvent values so that ordering, the arguments passed, and the absence of
calls are all provable.  NTSTATUS is an i32, modelled as Int; handles,
sockets and u32 values are modelled as Nat.
-/

/-- Value of STATUS_SUCCESS. -/
def STATUS_SUCCESS : Int := 0

/-- Value of STATUS_PENDING (0x103). -/
def STATUS_PENDING : Int := 0x103

/-- Value of the winsock error code WSAEINPROGRESS. -/
def WSAEINPROGRESS : Nat := 10036

/-- IOCTL_AFD_POLL = 0x00012024 (main.rs line 32). -/
def IOCTL_AFD_POLL : Nat := 0x00012024

/-- SIO_BASE_HANDLE = 0x48000022 (main.rs line 65). -/
def SIO_BASE_HANDLE : Nat := 0x48000022

/-- INVALID_SOCKET: all bits of a 64-bit SOCKET set. -/
def INVALID_SOCKET : Nat := 2 ^ 64 - 1

/-- SOCKET_ERROR, the failure return of WSAIoctl. -/
def SOCKET_ERROR : Int := -1

/-- Access right SYNCHRONIZE (0x00100000). -/
def SYNCHRONIZE : Nat := 0x00100000

/-- Share mode FILE_SHARE_READ. -/
def FILE_SHARE_READ : Nat := 1

/-- Share mode FILE_SHARE_WRITE. -/
def FILE_SHARE_WRITE : Nat := 2

/-- Create disposition FILE_OPEN: open the existing device, never create
it. -/
def FILE_OPEN : Nat := 1

/-- Observable kernel interactions of the code in main.rs.  The
constructors cover both the calls the code makes and the completion-port
association primitive that the specification expects AfdDevice setup to
make, so that its absence from a trace is expressible. -/
inductive OsEvent where
  | writeIosbStatus (status : Int)
  | ntDeviceIoControlFile (handle : Nat) (ioCtlCode : Nat)
      (iosbStatusAtCall : Int)
  | ntCreateFile (desiredAccess : Nat) (shareAccess : Nat)
      (createDisposition : Nat) (status : Int) (handleWritten : Nat)
  | createIoCompletionPort (fileHandle : Nat) (existingPort : Nat)
  | wsaIoctl (socket : Nat) (controlCode : Nat)
  deriving DecidableEq

/-- Memory and trace state threaded through afd_poll: the Status field of
the IO_STATUS_BLOCK that overlapped.Internal points at, and the trace of
kernel interactions so far. -/
structure AfdPollState where
  iosbStatus : Int
  trace : List OsEvent

/-- Function afd_poll (main.rs lines 34-63).  Arguments beyond the state:
rtlNtStatusToDosError is the OS translation primitive RtlNtStatusToDosError
(consumed, not reimplemented), afd_helper_handle is the device handle, and
kernelStatus is the NTSTATUS the kernel returns from NtDeviceIoControlFile.
The code first stores STATUS_PENDING through the status-block pointer
derived from overlapped.Internal, then issues NtDeviceIoControlFile with
IOCTL_AFD_POLL, then maps the returned status: STATUS_SUCCESS to 0,
STATUS_PENDING to WSAEINPROGRESS, anything else through
RtlNtStatusToDosError. -/
def afd_poll (rtlNtStatusToDosError : Int → Nat) (afd_helper_handle : Nat)
    (kernelStatus : Int) (s : AfdPollState) : Nat × AfdPollState :=
  let s1 : AfdPollState :=
    { iosbStatus := STATUS_PENDING,
      trace := s.trace ++ [OsEvent.writeIosbStatus STATUS_PENDING] }
  let status := kernelStatus
  let s2 : AfdPollState :=
    { s1 with
      trace := s1.trace ++
        [OsEvent.ntDeviceIoControlFile afd_helper_handle IOCTL_AFD_POLL
          s1.iosbStatus] }
  let ret : Nat :=
    if status = STATUS_SUCCESS then 0
    else if status = STATUS_PENDING then WSAEINPROGRESS
    else rtlNtStatusToDosError status
  (ret, s2)

/-- Predicate picking out device-control submissions in a trace. -/
def isSubmitEvent : OsEvent → Bool
  | OsEvent.ntDeviceIoControlFile _ _ _ => true
  | _ => false

/-- Predicate picking out completion-port associations in a trace. -/
def isAssociateEvent : OsEvent → Bool
  | OsEvent.createIoCompletionPort _ _ => true
  | _ => false

/-- Outcome of the WSAIoctl call inside ws_get_base_socket: the int the
call returns (0 on success, SOCKET_ERROR on failure) and the value the
kernel leaves in the output buffer that base_socket points at. -/
structure WsaIoctlOutcome where
  ret : Int
  written : Nat

/-- Function ws_get_base_socket (main.rs lines 67-90).  Issues one
WSAIoctl with SIO_BASE_HANDLE directing the output into the local
base_socket (initialised to 0); if the call returns SOCKET_ERROR the
function returns INVALID_SOCKET, otherwise it returns base_socket, i.e.
whatever the query wrote.  Returns the resulting SOCKET and the trace of
kernel interactions. -/
def ws_get_base_socket (socket : Nat) (outcome : WsaIoctlOutcome)
    (trace : List OsEvent) : Nat × List OsEvent :=
  let base_socket : Nat := outcome.written
  let trace := trace ++ [OsEvent.wsaIoctl socket SIO_BASE_HANDLE]
  if outcome.ret = SOCKET_ERROR then (INVALID_SOCKET, trace)
  else (base_socket, trace)

/-- Function afd_create_helper_handle (main.rs lines 109-137).  Arguments:
the completion port handle iocp, the NTSTATUS the kernel returns from
NtCreateFile on the fixed path device, the handle NtCreateFile writes into
the local afd_helper_handle when it succeeds, the value currently stored
in the out-parameter afd_helper_handle_out, and the trace so far.  The
code issues one NtCreateFile with SYNCHRONIZE access, read/write sharing
and FILE_OPEN disposition, then returns -1 if the status equals
STATUS_SUCCESS and 0 otherwise; on neither path does it assign through
afd_helper_handle_out, use iocp, or call the completion-port association
primitive.  Result: (return value, final value of the out-parameter,
trace). -/
def afd_create_helper_handle (iocp : Nat) (openStatus : Int)
    (openedHandle : Nat) (afd_helper_handle_out : Nat)
    (trace : List OsEvent) : Int × Nat × List OsEvent :=
  let trace := trace ++
    [OsEvent.ntCreateFile SYNCHRONIZE (FILE_SHARE_READ ||| FILE_SHARE_WRITE)
      FILE_OPEN openStatus (if openStatus = STATUS_SUCCESS then openedHandle else 0)]
  let status := openStatus
  let _ := iocp
  if status = STATUS_SUCCESS then (-1, afd_helper_handle_out, trace)
  else (0, afd_helper_handle_out, trace)

/-!
Part 3: the claims.
-/

/-- C1: the claim says afd_create_helper_handle reports success exactly
when NtCreateFile returns STATUS_SUCCESS and a fatal error otherwise.
The code does the opposite: evaluating it shows a successful open yields
the error return -1 while a failing open (here STATUS_OBJECT_NAME_NOT_FOUND,
0xC0000034 as a negative i32) yields the success return 0 — the status
check on main.rs line 132 is inverted relative to the 0-for-success
convention that afd_poll in the same file and the wepoll original use. -/
theorem afd_create_helper_handle_inverted_check :
    (afd_create_helper_handle 7 STATUS_SUCCESS 42 0 []).1 = -1 ∧
    (afd_create_helper_handle 7 (-1073741772) 42 0 []).1 = 0 :=
  ⟨rfl, rfl⟩

/-- C2: the claim says that on a successful open the function stores the
opened handle into afd_helper_handle_out and associates it with the iocp
completion port.  Evaluating the code on a successful open (status
STATUS_SUCCESS, kernel handle 42, out-parameter initially 0) shows the
out-parameter still holds 0 on return and the trace contains no
completion-port association call at all. -/
theorem afd_create_helper_handle_no_store_no_associate :
    (afd_create_helper_handle 7 STATUS_SUCCESS 42 0 []).2.1 = 0 ∧
    ((afd_create_helper_handle 7 STATUS_SUCCESS 42 0 []).2.2.countP
      isAssociateEvent = 0) :=
  ⟨rfl, rfl⟩

/-- C3: every Interests value constructible through the public interface
(the named constants and bitwise-or unions thereof, on any target) has at
least one of is_readable, is_writable, is_aio, is_lio true. -/
theorem interests_never_empty (os : TargetOs) (i : Interests)
    (h : Interests.Constructible os i) :
    (i.is_readable || i.is_writable || i.is_aio || i.is_lio) = true :=
  constructible_some_flag h

/-- Witness for C3 at the concrete value READABLE | WRITABLE. -/
theorem interests_never_empty_witness :
    ((Interests.READABLE.bitor Interests.WRITABLE).is_readable ||
     (Interests.READABLE.bitor Interests.WRITABLE).is_writable ||
     (Interests.READABLE.bitor Interests.WRITABLE).is_aio ||
     (Interests.READABLE.bitor Interests.WRITABLE).is_lio) = true :=
  interests_never_empty ⟨false, false⟩ _
    (Interests.Constructible.bitor Interests.Constructible.readable
      Interests.Constructible.writable)

/-- C4: the union is idempotent and commutative and each of the four flag
predicates distributes over it. -/
theorem interests_bitor_algebra (a b : Interests) :
    a.bitor a = a ∧ a.bitor b = b.bitor a ∧
    (a.bitor b).is_readable = (a.is_readable || b.is_readable) ∧
    (a.bitor b).is_writable = (a.is_writable || b.is_writable) ∧
    (a.bitor b).is_aio = (a.is_aio || b.is_aio) ∧
    (a.bitor b).is_lio = (a.is_lio || b.is_lio) := by
  refine ⟨?_, ?_, is_readable_bitor a b, is_writable_bitor a b,
    is_aio_bitor a b, is_lio_bitor a b⟩
  · exact Interests.ext_val (NonZeroU8.ext_get (Nat.or_self _))
  · exact Interests.ext_val (NonZeroU8.ext_get (Nat.or_comm _ _))

/-- C5: on every call, afd_poll writes STATUS_PENDING into the status
block reached through overlapped.Internal strictly before the single
NtDeviceIoControlFile submission, whatever status that submission then
returns: the appended trace is the pending write followed by the
submission, and the status block still holds STATUS_PENDING at the moment
the submission is issued. -/
theorem afd_poll_sets_pending_before_submit
    (rtl : Int → Nat) (hdl : Nat) (kernelStatus : Int) (s : AfdPollState) :
    (afd_poll rtl hdl kernelStatus s).2.trace =
      s.trace ++ [OsEvent.writeIosbStatus STATUS_PENDING,
        OsEvent.ntDeviceIoControlFile hdl IOCTL_AFD_POLL STATUS_PENDING] := by
  simp [afd_poll]

/-- C6: afd_poll maps the submission status STATUS_SUCCESS to 0,
STATUS_PENDING to WSAEINPROGRESS and every other status through
RtlNtStatusToDosError, and it issues exactly one device-control
submission whatever the status, so a failing submission is never
retried. -/
theorem afd_poll_status_cases_no_retry
    (rtl : Int → Nat) (hdl : Nat) (kernelStatus : Int) (s : AfdPollState) :
    ((afd_poll rtl hdl kernelStatus s).1 =
      if kernelStatus = STATUS_SUCCESS then 0
      else if kernelStatus = STATUS_PENDING then WSAEINPROGRESS
      else rtl kernelStatus) ∧
    ((afd_poll rtl hdl kernelStatus s).2.trace.countP isSubmitEvent =
      s.trace.countP isSubmitEvent + 1) := by
  constructor
  · rfl
  · simp [afd_poll, List.countP_append, List.countP_cons, isSubmitEvent]

/-- C7: when the SIO_BASE_HANDLE query fails (WSAIoctl returns
SOCKET_ERROR), ws_get_base_socket returns INVALID_SOCKET — in particular
never the original socket, for any socket other than the sentinel
itself — and when the query succeeds it returns exactly the base handle
the query wrote. -/
theorem ws_get_base_socket_failure_sentinel
    (socket : Nat) (outcome : WsaIoctlOutcome) (trace : List OsEvent) :
    (outcome.ret = SOCKET_ERROR →
      (ws_get_base_socket socket outcome trace).1 = INVALID_SOCKET ∧
      (socket ≠ INVALID_SOCKET →
        (ws_get_base_socket socket outcome trace).1 ≠ socket)) ∧
    (outcome.ret ≠ SOCKET_ERROR →
      (ws_get_base_socket socket outcome trace).1 = outcome.written) := by
  constructor
  · intro hfail
    have hres : (ws_get_base_socket socket outcome trace).1 = INVALID_SOCKET := by
      simp [ws_get_base_socket, hfail]
    exact ⟨hres, fun hns => hres ▸ Ne.symm hns⟩
  · intro hok
    simp [ws_get_base_socket, hok]

/-- Witness for C7: a failing query on socket 5 yields the sentinel, not
5; a successful query that wrote 9 yields 9. -/
theorem ws_get_base_socket_failure_sentinel_witness :
    (ws_get_base_socket 5 ⟨SOCKET_ERROR, 9⟩ []).1 = INVALID_SOCKET ∧
    (ws_get_base_socket 5 ⟨SOCKET_ERROR, 9⟩ []).1 ≠ 5 ∧
    (ws_get_base_socket 5 ⟨0, 9⟩ []).1 = 9 :=
  ⟨((ws_get_base_socket_failure_sentinel 5 ⟨SOCKET_ERROR, 9⟩ []).1 rfl).1,
   ((ws_get_base_socket_failure_sentinel 5 ⟨SOCKET_ERROR, 9⟩ []).1 rfl).2
     (by decide),
   (ws_get_base_socket_failure_sentinel 5 ⟨0, 9⟩ []).2 (by decide)⟩

/-- C8: for every constructible Interests value the Debug rendering is
exactly the names of the set (and compiled) flags joined by the separator,
with the debug assertion passing; and on any value whose displayed flag
set is empty the final assertion condition is false, i.e. the
debug_assert on interests.rs line 137 fires. -/
theorem interests_debug_rendering :
    (∀ (os : TargetOs) (i : Interests), Interests.Constructible os i →
      Interests.debug_fmt os i =
        (String.intercalate " | " (Interests.flagNames os i), true)) ∧
    (∀ (os : TargetOs) (j : Interests),
      Interests.flagNames os j = [] → (Interests.debug_fmt os j).2 = false) := by
  constructor
  · intro os i h
    rw [debug_fmt_eq_flagNames]
    simp [flagNames_ne_nil h]
  · intro os j hnil
    rw [debug_fmt_eq_flagNames, hnil]
    rfl

/-- Witness for C8: READABLE | WRITABLE renders as the two names joined
by the separator, on a target with both optional arms compiled. -/
theorem interests_debug_rendering_witness :
    Interests.debug_fmt ⟨true, true⟩
        (Interests.READABLE.bitor Interests.WRITABLE) =
      ("READABLE | WRITABLE", true) :=
  (interests_debug_rendering.1 ⟨true, true⟩ _
    (Interests.Constructible.bitor Interests.Constructible.readable
      Interests.Constructible.writable)).trans (by decide)

/-- C9: on a target where the AIO constant is not exposed no constructible
value satisfies is_aio, and on a target where the LIO constant is not
exposed no constructible value satisfies is_lio, even though both
predicates are callable everywhere. -/
theorem interests_aio_lio_unconstructible (os : TargetOs) (i : Interests)
    (h : Interests.Constructible os i) :
    (os.hasAio = false → i.is_aio = false) ∧
    (os.hasLio = false → i.is_lio = false) :=
  ⟨constructible_aio_of_flag h, constructible_lio_of_flag h⟩

/-- Witness for C9 at READABLE on a target exposing neither constant. -/
theorem interests_aio_lio_unconstructible_witness :
    Interests.READABLE.is_aio = false ∧ Interests.READABLE.is_lio = false :=
  ⟨(interests_aio_lio_unconstructible ⟨false, false⟩ _
      Interests.Constructible.readable).1 rfl,
   (interests_aio_lio_unconstructible ⟨false, false⟩ _
      Interests.Constructible.readable).2 rfl⟩

/-- C10: the compound assignment agrees with the union operator: the
BitOrAssign impl stores exactly the payload of self | other. -/
theorem interests_bitor_assign_eq_bitor (a b : Interests) :
    a.bitor_assign b = a.bitor b :=
  rfl
